import Mathlib

/-!
Verification of the multiphase clock-phase-assignment model builders in
src/python/multiphase (phase_assignment.py, decomposed_ilp_max.py,
decomposed_ilp_FA.py, Gradual_ILP.py, config_solver.py).

The scripts translate a typed signal graph into a CP-SAT model: one merged
timing variable SIGMA per signal (or a stage/phase pair S, Phi in the dual
formulation of Gradual_ILP.py), per-gate ordering constraints, auxiliary
variables defined by global constraints (max, min, division, modulo,
reified inequalities), and an additive objective that is minimized.

The shallow embedding below represents a candidate solver assignment as a
function from signal ids to integers.  Auxiliary variables whose defining
constraint pins them to a function of SIGMA (AddMaxEquality,
AddDivisionEquality, AddModuloEquality, equality-defined deltas) are
inlined as that function; the variable-bound constraints the scripts place
on them are kept as explicit range conjuncts.  CP-SAT division and modulo
round toward zero, hence Int.tdiv / Int.tmod.  Boolean flag variables that
are only one-directionally reified (OnlyEnforceIf with no converse) remain
free parameters of the feasibility predicate.
-/

namespace Multiphase

/-- Gate type codes, from the TYPES tables of phase_assignment.py and
decomposed_ilp_max.py: 0 PI, 1 AA, 2 AS, 3 SA, 4 FA. -/
inductive GType
| PI
| AA
| AS
| SA
| FA
deriving DecidableEq, BEq, Repr

/-- A signal, from class Primitive of phase_assignment.py. -/
structure Primitive where
  sig : Nat
  type : GType
  fanins : List Nat
  in_neg : List Bool
deriving DecidableEq, Repr

/-- Primitive.__init__ of phase_assignment.py: the stored type is the
declared one only when the fanin list is non-empty, otherwise PI
(self.type = _type if _fanins else 'PI'). -/
def Primitive.init (s : Nat) (t : GType) (fanins : List Nat) (in_neg : List Bool) : Primitive :=
  ⟨s, if fanins.isEmpty then GType.PI else t, fanins, in_neg⟩

/-- Dictionary lookup all_signals[s] (signal ids are unique in parsed input). -/
def lookupSig (gs : List Primitive) (s : Nat) : Option Primitive :=
  gs.find? (fun g => g.sig == s)

/-- The fanout counter of phase_assignment.py: while allocating SIGMA
variables, each non-PI gate increments fanout[p] once per occurrence of p
in its fanin list; PI-typed gates are skipped. -/
def fanout (gs : List Primitive) (p : Nat) : Nat :=
  (gs.map (fun g => if g.type = GType.PI then 0 else g.fanins.count p)).sum

/-- sigma_bounds = (0, 1000) of phase_assignment.py. -/
def sigma_bounds : Int × Int := (0, 1000)

/-- A value lies within the closed bounds a NewIntVar was created with. -/
def inBounds (b : Int × Int) (x : Int) : Prop := b.1 ≤ x ∧ x ≤ b.2

instance (b : Int × Int) (x : Int) : Decidable (inBounds b x) :=
  inferInstanceAs (Decidable (b.1 ≤ x ∧ x ≤ b.2))

/-- Bounds of the SIGMA variable allocated per signal: NewIntVar(0, NPH-1)
for a PI, NewIntVar(*sigma_bounds) otherwise. -/
def sigmaVarBounds (P : Nat) (g : Primitive) : Int × Int :=
  if g.type = GType.PI then (0, (P : Int) - 1) else sigma_bounds

/-- The allocation constraint on a signal's SIGMA value. -/
abbrev sigmaVarSat (P : Nat) (σ : Nat → Int) (g : Primitive) : Prop :=
  inBounds (sigmaVarBounds P g) (σ g.sig)

/-- max_diff of the AA case: AddMaxEquality(max_diff,
[SIGMA_g - SIGMA_a, SIGMA_g - SIGMA_b]). -/
def max_diff (σ : Nat → Int) (gSig a b : Nat) : Int :=
  max (σ gSig - σ a) (σ gSig - σ b)

/-- div_val of the AA case: AddDivisionEquality(div_val, max_diff, NPH);
CP-SAT integer division truncates toward zero. -/
def aa_div_val (P : Nat) (σ : Nat → Int) (gSig a b : Nat) : Int :=
  (max_diff σ gSig a b).tdiv P

/-- The AA-gate constraints of phase_assignment.py / decomposed_ilp_max.py:
variable bounds for max_diff and div_val, and SIGMA_a <= SIGMA_g,
SIGMA_b <= SIGMA_g. -/
abbrev aaSat (P : Nat) (σ : Nat → Int) (gSig a b : Nat) : Prop :=
  inBounds sigma_bounds (max_diff σ gSig a b) ∧
  inBounds sigma_bounds (aa_div_val P σ gSig a b) ∧
  σ a ≤ σ gSig ∧ σ b ≤ σ gSig

/-- delta of the AS case: delta == SIGMA_g - SIGMA_p. -/
def as_delta (σ : Nat → Int) (pSig gSig : Nat) : Int := σ gSig - σ pSig

/-- div_val of the AS case: AddDivisionEquality(div_val, delta, NPH). -/
def as_div_val (P : Nat) (σ : Nat → Int) (pSig gSig : Nat) : Int :=
  (as_delta σ pSig gSig).tdiv P

/-- The per-fanin AS constraints: SIGMA_p < SIGMA_g plus the bounds on the
delta and div_val variables. -/
abbrev asFaninSat (P : Nat) (σ : Nat → Int) (pSig gSig : Nat) : Prop :=
  σ pSig < σ gSig ∧
  inBounds sigma_bounds (as_delta σ pSig gSig) ∧
  inBounds sigma_bounds (as_div_val P σ pSig gSig)

/-- The true-AS test of the SA case, (p.type == 'AS') and (fanout[p.sig] == 1)
(named a_is_true_AS in Gradual_ILP.py). -/
def a_is_true_AS (gs : List Primitive) (p : Primitive) : Bool :=
  decide (p.type = GType.AS) && decide (fanout gs p.sig = 1)

/-- delta of the SA case: delta == SIGMA_g - SIGMA_p + NPH - 1. -/
def sa_delta (P : Nat) (σ : Nat → Int) (pSig gSig : Nat) : Int :=
  σ gSig - σ pSig + P - 1

/-- div_val of the SA case: AddDivisionEquality(div_val, delta, NPH). -/
def sa_div_val (P : Nat) (σ : Nat → Int) (pSig gSig : Nat) : Int :=
  (sa_delta P σ pSig gSig).tdiv P

/-- The per-fanin SA constraints: a non-strict ordering for a true-AS fanin,
strict otherwise, plus the delta/div_val bounds.  The fanin lookup
all_signals[p_sig] must succeed (a missing id raises KeyError during
construction). -/
abbrev saFaninSat (gs : List Primitive) (P : Nat) (σ : Nat → Int) (pSig gSig : Nat) : Prop :=
  match lookupSig gs pSig with
  | none => False
  | some p =>
    (if a_is_true_AS gs p then σ pSig ≤ σ gSig else σ pSig < σ gSig) ∧
    inBounds sigma_bounds (sa_delta P σ pSig gSig) ∧
    inBounds sigma_bounds (sa_div_val P σ pSig gSig)

/-- incr_Sigma of the FA case: the effective timing of fanin p gains one
when p is an AA gate, or an AS/SA gate whose input edge is negated.  (A
missing fanin id would raise KeyError during construction; see checkGate.) -/
def incr_Sigma (gs : List Primitive) (pSig : Nat) (neg : Bool) : Int :=
  match lookupSig gs pSig with
  | none => 0
  | some p =>
    if p.type = GType.AA ∨ ((p.type = GType.AS ∨ p.type = GType.SA) ∧ neg = true) then 1 else 0

/-- The effective fanin timing SIGMA_p + incr_Sigma used by the FA case. -/
def effSigma (gs : List Primitive) (σ : Nat → Int) (pSig : Nat) (neg : Bool) : Int :=
  σ pSig + incr_Sigma gs pSig neg

/-- Minimum of three values (AddMinEquality over the three effective timings). -/
def min3 (a b c : Int) : Int := min a (min b c)

/-- Maximum of three values (AddMaxEquality over the three effective timings). -/
def max3 (a b c : Int) : Int := max a (max b c)

/-- ABS_MIN of the FA case. -/
def ABS_MIN (e0 e1 e2 : Int) : Int := min3 e0 e1 e2

/-- ABS_MAX of the FA case. -/
def ABS_MAX (e0 e1 e2 : Int) : Int := max3 e0 e1 e2

/-- ABS_MED of the FA case, defined by the constraint
ABS_MED == e0 + e1 + e2 - ABS_MIN - ABS_MAX. -/
def ABS_MED (e0 e1 e2 : Int) : Int := e0 + e1 + e2 - ABS_MIN e0 e1 e2 - ABS_MAX e0 e1 e2

/-- The middle one of three values (the spec's median); proved equal to
ABS_MED below. -/
def median3 (a b c : Int) : Int := max (min a b) (min (max a b) c)

/-- MED_MIN_diff: AddModuloEquality(MED_MIN_diff, ABS_MED - ABS_MIN, NPH);
CP-SAT modulo rounds toward zero. -/
def MED_MIN_diff (P : Nat) (e0 e1 e2 : Int) : Int :=
  (ABS_MED e0 e1 e2 - ABS_MIN e0 e1 e2).tmod P

/-- MAX_MED_diff: AddModuloEquality(MAX_MED_diff, ABS_MAX - ABS_MED, NPH). -/
def MAX_MED_diff (P : Nat) (e0 e1 e2 : Int) : Int :=
  (ABS_MAX e0 e1 e2 - ABS_MED e0 e1 e2).tmod P

/-- MAX_MIN_diff: AddModuloEquality(MAX_MIN_diff, ABS_MAX - ABS_MIN, NPH). -/
def MAX_MIN_diff (P : Nat) (e0 e1 e2 : Int) : Int :=
  (ABS_MAX e0 e1 e2 - ABS_MIN e0 e1 e2).tmod P

/-- FLOOR_DIFF_MIN: AddDivisionEquality(FLOOR_DIFF_MIN, T - ABS_MIN - 1, NPH). -/
def FLOOR_DIFF_MIN (P : Nat) (e0 e1 e2 T : Int) : Int :=
  (T - ABS_MIN e0 e1 e2 - 1).tdiv P

/-- FLOOR_DIFF_MED: AddDivisionEquality(FLOOR_DIFF_MED, T - ABS_MED - 1, NPH). -/
def FLOOR_DIFF_MED (P : Nat) (e0 e1 e2 T : Int) : Int :=
  (T - ABS_MED e0 e1 e2 - 1).tdiv P

/-- FLOOR_DIFF_MAX: AddDivisionEquality(FLOOR_DIFF_MAX, T - ABS_MAX - 1, NPH). -/
def FLOOR_DIFF_MAX (P : Nat) (e0 e1 e2 T : Int) : Int :=
  (T - ABS_MAX e0 e1 e2 - 1).tdiv P

/-- Boolean variable value as the 0/1 integer it contributes to sums. -/
def b2i (b : Bool) : Int := if b then 1 else 0

/-- The per-cell FA/T1 constraints of phase_assignment.py (lines 222-292),
for the cell with member output ids `members`, fanins f0 f1 f2 with
negation marks n0 n1 n2, the cell timing variable T (T1_XOR_SIGMA) and the
two alignment flag variables.  The flags are only one-directionally
reified: OnlyEnforceIf(MIN_FLAG) constrains the conditions when the flag
is true and nothing constrains the flag when the conditions hold. -/
abbrev faCellSat (gs : List Primitive) (P : Nat) (members : List Nat)
    (f0 f1 f2 : Nat) (n0 n1 n2 : Bool) (σ : Nat → Int) (T : Int)
    (minFlag medFlag : Bool) : Prop :=
  let e0 := effSigma gs σ f0 n0
  let e1 := effSigma gs σ f1 n1
  let e2 := effSigma gs σ f2 n2
  inBounds sigma_bounds (ABS_MIN e0 e1 e2) ∧
  inBounds sigma_bounds (ABS_MAX e0 e1 e2) ∧
  inBounds sigma_bounds (ABS_MED e0 e1 e2) ∧
  inBounds sigma_bounds T ∧
  T > ABS_MIN e0 e1 e2 + 2 ∧
  T > ABS_MED e0 e1 e2 + 1 ∧
  T > ABS_MAX e0 e1 e2 ∧
  inBounds sigma_bounds (ABS_MED e0 e1 e2 - ABS_MIN e0 e1 e2) ∧
  inBounds sigma_bounds (MED_MIN_diff P e0 e1 e2) ∧
  inBounds sigma_bounds (ABS_MAX e0 e1 e2 - ABS_MED e0 e1 e2) ∧
  inBounds sigma_bounds (MAX_MED_diff P e0 e1 e2) ∧
  inBounds sigma_bounds (ABS_MAX e0 e1 e2 - ABS_MIN e0 e1 e2) ∧
  inBounds sigma_bounds (MAX_MIN_diff P e0 e1 e2) ∧
  inBounds (-1000, 1000) (T - ABS_MIN e0 e1 e2 - 1) ∧
  inBounds sigma_bounds (FLOOR_DIFF_MIN P e0 e1 e2 T) ∧
  inBounds sigma_bounds (T - ABS_MED e0 e1 e2 - 1) ∧
  inBounds sigma_bounds (FLOOR_DIFF_MED P e0 e1 e2 T) ∧
  inBounds sigma_bounds (T - ABS_MAX e0 e1 e2 - 1) ∧
  inBounds sigma_bounds (FLOOR_DIFF_MAX P e0 e1 e2 T) ∧
  (minFlag = true → MED_MIN_diff P e0 e1 e2 = 0 ∧ FLOOR_DIFF_MIN P e0 e1 e2 T = 0) ∧
  (medFlag = true → MAX_MED_diff P e0 e1 e2 = 0 ∧ FLOOR_DIFF_MED P e0 e1 e2 T = 0) ∧
  (∀ s ∈ members, σ s = T)

/-- The cost terms the FA case appends to the objective: the three
floor-division variables and the two flag variables, each added with
coefficient +1. -/
def faCost (P : Nat) (e0 e1 e2 T : Int) (minFlag medFlag : Bool) : List Int :=
  [FLOOR_DIFF_MIN P e0 e1 e2 T, FLOOR_DIFF_MED P e0 e1 e2 T, FLOOR_DIFF_MAX P e0 e1 e2 T,
   b2i minFlag, b2i medFlag]

/-- A T1 cell: the sibling output ids declared on one input line
(XOR first; parse_specs asserts an XOR member exists). -/
structure T1Cell where
  members : List Nat
deriving DecidableEq, Repr

/-- Per-gate ordering/synchronization constraints of the main constraint
loop of phase_assignment.py.  FA gates are constrained per cell (see
cellSat); encoding happens once per cell thanks to already_processed. -/
abbrev gateSat (gs : List Primitive) (P : Nat) (σ : Nat → Int) (g : Primitive) : Prop :=
  if g.type = GType.PI then True
  else if g.type = GType.AA then
    g.fanins.length = 2 ∧ aaSat P σ g.sig (g.fanins.getD 0 0) (g.fanins.getD 1 0)
  else if g.type = GType.AS then ∀ p ∈ g.fanins, asFaninSat P σ p g.sig
  else if g.type = GType.SA then ∀ p ∈ g.fanins, saFaninSat gs P σ p g.sig
  else True

/-- The constraints one T1 cell contributes: its members share the fanins
recorded on the parsed line (all members were created with the same fanin
and negation lists), and the FA encoding is emitted once for the cell.
Tof, minF and medF give the cell's T1_XOR_SIGMA, MIN_FLAG and MED_FLAG
variable values, keyed by the first member id. -/
abbrev cellSat (gs : List Primitive) (P : Nat) (σ : Nat → Int)
    (Tof : Nat → Int) (minF medF : Nat → Bool) (c : T1Cell) : Prop :=
  c.members ≠ [] ∧
  match lookupSig gs (c.members.headD 0) with
  | none => False
  | some g =>
    g.fanins.length = 3 ∧ g.in_neg.length = 3 ∧
    faCellSat gs P c.members (g.fanins.getD 0 0) (g.fanins.getD 1 0) (g.fanins.getD 2 0)
      (g.in_neg.getD 0 false) (g.in_neg.getD 1 false) (g.in_neg.getD 2 false)
      σ (Tof (c.members.headD 0)) (minF (c.members.headD 0)) (medF (c.members.headD 0))

/-- A full feasible assignment of the constructed model: SIGMA bounds for
every signal, the per-gate constraints, and the per-cell FA constraints. -/
abbrev modelSat (gs : List Primitive) (cells : List T1Cell) (P : Nat)
    (σ : Nat → Int) (Tof : Nat → Int) (minF medF : Nat → Bool) : Prop :=
  (∀ g ∈ gs, sigmaVarSat P σ g) ∧
  (∀ g ∈ gs, gateSat gs P σ g) ∧
  (∀ c ∈ cells, cellSat gs P σ Tof minF medF c)

instance (gs : List Primitive) (P : Nat) (σ : Nat → Int) (pSig gSig : Nat) :
    Decidable (saFaninSat gs P σ pSig gSig) := by
  unfold saFaninSat
  cases lookupSig gs pSig with
  | none => exact inferInstanceAs (Decidable False)
  | some p => infer_instance

instance (gs : List Primitive) (P : Nat) (σ : Nat → Int) (Tof : Nat → Int)
    (minF medF : Nat → Bool) (c : T1Cell) : Decidable (cellSat gs P σ Tof minF medF c) := by
  unfold cellSat
  cases lookupSig gs (c.members.headD 0) with
  | none => exact inferInstanceAs (Decidable (_ ∧ False))
  | some g => infer_instance

/-- The cost terms one gate appends to the objective expression list. -/
def gateCost (P : Nat) (σ : Nat → Int) (g : Primitive) : List Int :=
  if g.type = GType.AA then
    [aa_div_val P σ g.sig (g.fanins.getD 0 0) (g.fanins.getD 1 0)]
  else if g.type = GType.AS then g.fanins.map (fun p => as_div_val P σ p g.sig)
  else if g.type = GType.SA then g.fanins.map (fun p => sa_div_val P σ p g.sig)
  else []

/-- The cost terms one T1 cell appends (mirrors cellSat's member/fanin
resolution). -/
def cellCost (gs : List Primitive) (P : Nat) (σ : Nat → Int)
    (Tof : Nat → Int) (minF medF : Nat → Bool) (c : T1Cell) : List Int :=
  match lookupSig gs (c.members.headD 0) with
  | none => []
  | some g =>
    faCost P (effSigma gs σ (g.fanins.getD 0 0) (g.in_neg.getD 0 false))
      (effSigma gs σ (g.fanins.getD 1 0) (g.in_neg.getD 1 false))
      (effSigma gs σ (g.fanins.getD 2 0) (g.in_neg.getD 2 false))
      (Tof (c.members.headD 0)) (minF (c.members.headD 0)) (medF (c.members.headD 0))

/-- All cost terms of the model, in construction order: per-gate terms then
per-cell FA terms. -/
def modelCost (gs : List Primitive) (cells : List T1Cell) (P : Nat)
    (σ : Nat → Int) (Tof : Nat → Int) (minF medF : Nat → Bool) : List Int :=
  (gs.map (gateCost P σ)).flatten ++ (cells.map (cellCost gs P σ Tof minF medF)).flatten

/-- The objective handed to Minimize: the sum of every appended term. -/
def objectiveValue (gs : List Primitive) (cells : List T1Cell) (P : Nat)
    (σ : Nat → Int) (Tof : Nat → Int) (minF medF : Nat → Bool) : Int :=
  (modelCost gs cells P σ Tof minF medF).sum

/-- The failures the constraint loop of phase_assignment.py can raise while
building the model: a dictionary lookup of an undeclared fanin id
(KeyError on all_signals[...] / Sigma[...]), a failed arity assert, and the
ValueError raised when an FA gate is in no declared T1 cell. -/
inductive BuildError
| keyError
| assertionError
| valueError
deriving DecidableEq, Repr

/-- The checks the constraint loop performs for one gate before/while
emitting its constraints.  Note no acyclicity or topological check exists:
constraints only ever look ids up in the completed signal table. -/
def checkGate (gs : List Primitive) (cells : List T1Cell) (g : Primitive) :
    Except BuildError Unit :=
  match g.type with
  | GType.PI => Except.ok ()
  | GType.AA =>
    match g.fanins with
    | [a, b] =>
      if (lookupSig gs a).isSome && (lookupSig gs b).isSome then Except.ok ()
      else Except.error BuildError.keyError
    | _ => Except.error BuildError.assertionError
  | GType.AS =>
    if g.fanins.all (fun p => (lookupSig gs p).isSome) then Except.ok ()
    else Except.error BuildError.keyError
  | GType.SA =>
    if g.fanins.all (fun p => (lookupSig gs p).isSome) then Except.ok ()
    else Except.error BuildError.keyError
  | GType.FA =>
    if cells.any (fun c => c.members.contains g.sig) then
      if g.fanins.length == 3 then
        if g.fanins.all (fun p => (lookupSig gs p).isSome) then Except.ok ()
        else Except.error BuildError.keyError
      else Except.error BuildError.assertionError
    else Except.error BuildError.valueError

/-- Model construction up to the Solve call: every gate's checks must pass;
on success the fully built model is handed to the solver. -/
def buildCheck (gs : List Primitive) (cells : List T1Cell) : Except BuildError Unit :=
  gs.foldlM (fun _ g => checkGate gs cells g) ()

/-- How many solver variables the construction allocates for one gate in
the constraint loop (beyond its SIGMA variable): AA makes max_diff and
div_val; AS and SA make delta and div_val per fanin; FA variables are per
cell. -/
def gateAuxVarCount (g : Primitive) : Nat :=
  match g.type with
  | GType.AA => 2
  | GType.AS => 2 * g.fanins.length
  | GType.SA => 2 * g.fanins.length
  | _ => 0

/-- Total variable count of the constructed model: one SIGMA per signal,
the per-gate auxiliaries, and per T1 cell the 16 integer variables
(ABS_MIN/MAX/MED, T1_XOR_SIGMA, three modulo pairs, three floor pairs) and
2 flag booleans. -/
def varCount (gs : List Primitive) (cells : List T1Cell) : Nat :=
  gs.length + (gs.map gateAuxVarCount).sum + 18 * cells.length

/-- v is the optimal objective value of the constructed model: attained by
some feasible assignment and a lower bound of every feasible assignment's
objective. -/
def IsOptimalObjective (gs : List Primitive) (cells : List T1Cell) (P : Nat) (v : Int) : Prop :=
  (∃ σ Tof minF medF, modelSat gs cells P σ Tof minF medF ∧
    objectiveValue gs cells P σ Tof minF medF = v) ∧
  (∀ σ Tof minF medF, modelSat gs cells P σ Tof minF medF →
    v ≤ objectiveValue gs cells P σ Tof minF medF)

/-- The four canonical CP-SAT outcomes the scripts inspect through
solver.StatusName(status). -/
inductive CpStatus
| OPTIMAL
| FEASIBLE
| INFEASIBLE
| UNKNOWN
deriving DecidableEq, Repr

/-- solver.StatusName: the distinct name each outcome is reported under. -/
def statusName : CpStatus → String
  | CpStatus.OPTIMAL => "OPTIMAL"
  | CpStatus.FEASIBLE => "FEASIBLE"
  | CpStatus.INFEASIBLE => "INFEASIBLE"
  | CpStatus.UNKNOWN => "UNKNOWN"

/-- phase_assignment.py lines 305-310: the status name is always printed;
the objective value and the per-signal assignment are printed only when
StatusName is OPTIMAL or FEASIBLE. -/
def phase_reports_solution (s : CpStatus) : Bool :=
  statusName s == "OPTIMAL" || statusName s == "FEASIBLE"

/-- config_solver.py lines 113-115: the status name is printed, then the
objective value is printed unconditionally (the `if status == OPTIMAL`
guard is commented out), for every outcome including INFEASIBLE and
UNKNOWN. -/
def config_reports_objective (s : CpStatus) : Bool :=
  match s with
  | _ => true

end Multiphase

namespace Gradual

open Multiphase

/-!
Embedding of the SA and AS cases of Gradual_ILP.py, the dual stage/phase
formulation: variables S (clock stage, bounds (0, 1000), fixed 0 for PI)
and Phi (phase, bounds (0, NPH-1)) per signal, with NPH = 2 in the script.
Reified helper booleans come from the functions named 𝜑_le, 𝜑_lt and
phi_lt there.
-/

/-- NPH of Gradual_ILP.py (hard-coded to 2). -/
def NPH : Int := 2

/-- S_bounds = (0, 1000) of Gradual_ILP.py. -/
def S_bounds : Int × Int := (0, 1000)

/-- The reified boolean of 𝜑_le(model, a, b): true forces
Phi[a] <= Phi[b], false forces Phi[a] > Phi[b]. -/
abbrev phi_le_sat (Phi : Nat → Int) (aSig bSig : Nat) (cond : Bool) : Prop :=
  (cond = true → Phi aSig ≤ Phi bSig) ∧ (cond = false → Phi aSig > Phi bSig)

/-- The reified boolean of 𝜑_lt(model, a, b): true forces
Phi[a] < Phi[b], false forces Phi[a] >= Phi[b]. -/
abbrev phi_lt_sat (Phi : Nat → Int) (aSig bSig : Nat) (cond : Bool) : Prop :=
  (cond = true → Phi aSig < Phi bSig) ∧ (cond = false → Phi aSig ≥ Phi bSig)

/-- The Delta variable of the SA cases: D >= S[a]-S[b], D >= S[b]-S[a],
within S_bounds. -/
abbrev delta_sat (S : Nat → Int) (aSig bSig : Nat) (D : Int) : Prop :=
  S aSig - S bSig ≤ D ∧ S bSig - S aSig ≤ D ∧ inBounds S_bounds D

/-- Gradual_ILP.py SA case, both fanins true AS (lines 188-216): the
ordering boolean a_lt_b is reified in both directions, placement puts the
gate exactly at the later input, and cond_a/cond_b are one-directionally
tied to the phase-comparison booleans. -/
abbrev saCaseYYSat (S Phi : Nat → Int) (aSig bSig gSig : Nat) (D : Int)
    (a_lt_b phiBA phiAB cond_a cond_b : Bool) : Prop :=
  (a_lt_b = true → NPH * S aSig + Phi aSig < NPH * S bSig + Phi bSig) ∧
  (a_lt_b = true → S gSig = S bSig ∧ Phi gSig = Phi bSig) ∧
  phi_le_sat Phi bSig aSig phiBA ∧
  (a_lt_b = false → NPH * S aSig + Phi aSig ≥ NPH * S bSig + Phi bSig) ∧
  (a_lt_b = false → S gSig = S aSig ∧ Phi gSig = Phi aSig) ∧
  phi_le_sat Phi aSig bSig phiAB ∧
  delta_sat S aSig bSig D ∧
  (cond_a = true → phiBA = true ∧ a_lt_b = true) ∧
  (cond_b = true → phiAB = true ∧ a_lt_b = false)

/-- The cost term the both-true-AS SA case appends:
Delta + 1 - cond_b - cond_a. -/
def saCaseYYTerm (D : Int) (cond_a cond_b : Bool) : Int :=
  D + 1 - b2i cond_b - b2i cond_a

/-- Gradual_ILP.py SA case, neither fanin true AS (lines 218-246):
placement puts the gate one timing unit after the later input, and
cond_a/cond_b are reified in both directions. -/
abbrev saCaseNNSat (S Phi : Nat → Int) (aSig bSig gSig : Nat) (D : Int)
    (a_lt_b phiBA phiAB cond_a cond_b : Bool) : Prop :=
  (a_lt_b = true → NPH * S aSig + Phi aSig < NPH * S bSig + Phi bSig) ∧
  (a_lt_b = true → NPH * S gSig + Phi gSig = NPH * S bSig + Phi bSig + 1) ∧
  phi_lt_sat Phi bSig aSig phiBA ∧
  (a_lt_b = false → NPH * S aSig + Phi aSig ≥ NPH * S bSig + Phi bSig) ∧
  (a_lt_b = false → NPH * S gSig + Phi gSig = NPH * S aSig + Phi aSig + 1) ∧
  phi_lt_sat Phi aSig bSig phiAB ∧
  delta_sat S aSig bSig D ∧
  (cond_a = true → phiBA = true ∧ a_lt_b = true) ∧
  (cond_a = false → phiBA = false ∨ a_lt_b = false) ∧
  (cond_b = true → phiAB = true ∧ a_lt_b = false) ∧
  (cond_b = false → phiAB = false ∨ a_lt_b = true)

/-- The cost term the neither-true-AS SA case appends:
Delta + 2 - cond_a - cond_b. -/
def saCaseNNTerm (D : Int) (cond_a cond_b : Bool) : Int :=
  D + 2 - b2i cond_a - b2i cond_b

/-- Gradual_ILP.py SA case, a true AS and b not (lines 252-280, after the
role swap of lines 248-250): a_lt_b_p1 is reified in both directions,
Phi_cond_a and Phi_cond_b come from phi_lt(model, a, b) and
phi_lt(model, b, a) which reify Phi[b] <= Phi[a] and Phi[a] <= Phi[b]. -/
abbrev saCaseANSat (S Phi : Nat → Int) (aSig bSig gSig : Nat) (D : Int)
    (a_lt_b_p1 Phi_cond_a Phi_cond_b cond_a cond_b : Bool) : Prop :=
  (a_lt_b_p1 = true → NPH * S aSig + Phi aSig < NPH * S bSig + Phi bSig + 1) ∧
  (a_lt_b_p1 = false → NPH * S aSig + Phi aSig ≥ NPH * S bSig + Phi bSig + 1) ∧
  (a_lt_b_p1 = true → NPH * S gSig + Phi gSig = NPH * S bSig + Phi bSig + 1) ∧
  (a_lt_b_p1 = false → S gSig = S aSig ∧ Phi gSig = Phi aSig) ∧
  (Phi_cond_a = true → Phi bSig ≤ Phi aSig) ∧
  (Phi_cond_a = false → Phi bSig > Phi aSig) ∧
  (Phi_cond_b = true → Phi aSig ≤ Phi bSig) ∧
  (Phi_cond_b = false → Phi aSig > Phi bSig) ∧
  delta_sat S aSig bSig D ∧
  (cond_a = true → Phi_cond_a = true ∧ a_lt_b_p1 = false) ∧
  (cond_b = true → Phi_cond_b = true ∧ a_lt_b_p1 = true)

/-- The cost term the mixed SA case appends:
Delta - cond_a - cond_b + a_lt_b_p1 + 1. -/
def saCaseANTerm (D : Int) (cond_a cond_b a_lt_b_p1 : Bool) : Int :=
  D - b2i cond_a - b2i cond_b + b2i a_lt_b_p1 + 1

/-- The AS-case objective term of Gradual_ILP.py (lines 160-175): a PI
fanin takes the special branch appending S[g] - Phi_cond; every other
fanin appends S[g] - S[p] - Phi_cond. -/
def as_cost_term (p : Primitive) (S : Nat → Int) (gSig : Nat) (Phi_cond : Bool) : Int :=
  if p.type = GType.PI then S gSig - b2i Phi_cond
  else S gSig - S p.sig - b2i Phi_cond

end Gradual

namespace Multiphase

/-! Concrete instances used to exercise the encodings. -/

/-- All-zero default for the per-cell integer variables. -/
def zeroT : Nat → Int := fun _ => 0

/-- All-false default for the flag variables. -/
def falseF : Nat → Bool := fun _ => false

/-- Primary input signal 1. -/
def piG1 : Primitive := Primitive.init 1 GType.PI [] []

/-- AS gate 2 fed by signal 1. -/
def asG2 : Primitive := Primitive.init 2 GType.AS [1] []

/-- AS gate 3 fed by signal 1. -/
def asG3 : Primitive := Primitive.init 3 GType.AS [1] []

/-- AA gate 4 joining signals 2 and 3. -/
def aaG4 : Primitive := Primitive.init 4 GType.AA [2, 3] []

/-- A PI feeding two AS gates whose outputs join in an AA gate. -/
def aaGs : List Primitive := [piG1, asG2, asG3, aaG4]

/-- A feasible timing for aaGs with P = 2: signal 1 at 0, signal 2 at 1,
signals 3 and 4 at 4. -/
def aaSigma : Nat → Int := fun n => if n = 1 then 0 else if n = 2 then 1 else 4

/-- A PI feeding one AS gate. -/
def asGs : List Primitive := [piG1, asG2]

/-- A feasible timing for asGs with P = 2: the PI at 0, the AS gate at 2. -/
def asSigma : Nat → Int := fun n => if n = 2 then 2 else 0

/-- SA gate 5 with the AS fanin 2 and the PI fanin 1. -/
def saG5 : Primitive := Primitive.init 5 GType.SA [2, 1] []

/-- A PI feeding an AS gate, both feeding an SA gate. -/
def saGs : List Primitive := [piG1, asG2, saG5]

/-- A feasible timing for saGs with P = 2: the PI at 0, the others at 1. -/
def saSigma : Nat → Int := fun n => if n = 1 then 0 else 1

/-- The cyclic instance: AS gates 3 and 4 reference each other. -/
def cycG3 : Primitive := Primitive.init 3 GType.AS [4] []

/-- The other half of the cycle. -/
def cycG4 : Primitive := Primitive.init 4 GType.AS [3] []

/-- A signal list containing a manually constructed cyclic fanin
reference between two declared signals. -/
def cycGs : List Primitive := [piG1, cycG3, cycG4]

/-- Three primary inputs, the fanins of the example T1 cells below. -/
def faPIs : List Primitive :=
  [piG1, Primitive.init 2 GType.PI [] [], Primitive.init 3 GType.PI [] []]

/-- A timing placing the cell members 10 and 11 at 3 and the inputs at 0. -/
def faSigmaW : Nat → Int := fun n => if 10 ≤ n then 3 else 0

/-- A timing placing the cell member 10 at 3 and the inputs at 0. -/
def faSigmaE : Nat → Int := fun n => if n = 10 then 3 else 0

/-- A single primary input, the smallest nonempty model. -/
def piOnly : List Primitive := [piG1]

/-! Claim theorems. -/

/-- C10: Primitive.__init__ stores type PI for every signal constructed
with an empty fanin list, whatever type was declared on the line, so the
allocator then bounds its timing variable to [0, P-1] (stage fixed to 0)
instead of rejecting it. -/
theorem emptyFanins_forced_PI_C10 (s : Nat) (t : GType) (inn : List Bool) (P : Nat) :
    (Primitive.init s t [] inn).type = GType.PI ∧
    sigmaVarBounds P (Primitive.init s t [] inn) = (0, (P : Int) - 1) :=
  ⟨rfl, rfl⟩

/-- C5 counterexample: config_solver.py reports an objective value even for
the INFEASIBLE and UNKNOWN outcomes, where no solution exists, because the
guard on the objective print is commented out. -/
theorem status_reporting_C5_cex :
    config_reports_objective CpStatus.INFEASIBLE = true ∧
    config_reports_objective CpStatus.UNKNOWN = true :=
  ⟨rfl, rfl⟩

/-- C5 (amended): the four solver outcomes are distinguished by their
reported names (never collapsed into a boolean), and phase_assignment.py
reports the objective value and assignment exactly on OPTIMAL or FEASIBLE;
config_solver.py however prints the objective unconditionally, even on
INFEASIBLE. -/
theorem status_reporting_C5 :
    (∀ s t : CpStatus, statusName s = statusName t → s = t) ∧
    (∀ s : CpStatus, phase_reports_solution s = true ↔
      (s = CpStatus.OPTIMAL ∨ s = CpStatus.FEASIBLE)) ∧
    config_reports_objective CpStatus.INFEASIBLE = true := by
  refine ⟨?_, ?_, rfl⟩
  · intro s t h
    cases s <;> cases t <;> first | rfl | exact absurd h (by decide)
  · intro s
    cases s <;> decide

/-- C1 counterexample: in this feasible model (P = 2) the AA gate 4 has
fanin timings 1 and 4 and output timing 4; the cost term the code appends
is 1, while the claimed formula floor((output - max(inputs)) / P) gives 0:
the code divides (output - min(inputs)), the distance to the
earlier-arriving input. -/
theorem aa_cost_C1_cex :
    modelSat aaGs [] 2 aaSigma zeroT falseF falseF ∧
    gateCost 2 aaSigma aaG4 = [1] ∧
    (aaSigma 4 - max (aaSigma 2) (aaSigma 3)).tdiv 2 = 0 := by
  decide

/-- C1 (amended): for every AA signal the model enforces output timing at
least each fanin timing, and the appended cost term equals the
floor-division of (output timing - min of the two fanin timings) by P:
the phase boundaries spanned to the earlier-arriving input. -/
theorem aa_cost_C1 (P : Nat) (σ : Nat → Int) (gSig a b : Nat)
    (hP : 0 < P) (h : aaSat P σ gSig a b) :
    σ a ≤ σ gSig ∧ σ b ≤ σ gSig ∧
    aa_div_val P σ gSig a b = (σ gSig - min (σ a) (σ b)).tdiv P ∧
    aa_div_val P σ gSig a b = (σ gSig - min (σ a) (σ b)) / (P : Int) := by
  obtain ⟨hb1, hb2, ha, hb⟩ := h
  have hmax : max_diff σ gSig a b = σ gSig - min (σ a) (σ b) := by
    unfold max_diff
    omega
  have hnn : 0 ≤ σ gSig - min (σ a) (σ b) := by omega
  refine ⟨ha, hb, ?_, ?_⟩
  · unfold aa_div_val
    rw [hmax]
  · unfold aa_div_val
    rw [hmax]
    exact Int.tdiv_eq_ediv hnn (by omega)

/-- C1 witness: the amended statement discharged at the AA gate of the
counterexample model. -/
theorem aa_cost_C1_witness :
    aaSigma 2 ≤ aaSigma 4 ∧ aaSigma 3 ≤ aaSigma 4 ∧
    aa_div_val 2 aaSigma 4 2 3 = (aaSigma 4 - min (aaSigma 2) (aaSigma 3)).tdiv 2 ∧
    aa_div_val 2 aaSigma 4 2 3 = (aaSigma 4 - min (aaSigma 2) (aaSigma 3)) / ((2 : Nat) : Int) :=
  aa_cost_C1 2 aaSigma 4 2 3 (by decide) (by decide)

/-- In a satisfied model, an AS-typed gate imposes its per-fanin
constraints. -/
theorem gateSat_AS_elim {gs : List Primitive} {P : Nat} {σ : Nat → Int} {g : Primitive}
    (h : gateSat gs P σ g) (ht : g.type = GType.AS) {p : Nat} (hp : p ∈ g.fanins) :
    asFaninSat P σ p g.sig := by
  unfold gateSat at h
  rw [ht] at h
  simp at h
  exact h p hp

/-- In a satisfied model, an SA-typed gate imposes its per-fanin
constraints. -/
theorem gateSat_SA_elim {gs : List Primitive} {P : Nat} {σ : Nat → Int} {g : Primitive}
    (h : gateSat gs P σ g) (ht : g.type = GType.SA) {p : Nat} (hp : p ∈ g.fanins) :
    saFaninSat gs P σ p g.sig := by
  unfold gateSat at h
  rw [ht] at h
  simp at h
  exact h p hp

/-- C6 counterexample: the cyclic fanin pair 3 <-> 4 passes every
construction-time check — no broken-reference or validation error fires —
so the cycle is not rejected before the solver is invoked, contrary to the
claim. -/
theorem cycle_not_rejected_C6_cex : buildCheck cycGs [] = Except.ok () := rfl

/-- C6 (amended): a cyclic fanin reference among declared signals is not
rejected during model construction (all checks pass); the contradictory
ordering constraints are emitted and reach the solver, whose model is
infeasible, so the failure surfaces as solver status INFEASIBLE rather
than a validation error. -/
theorem cycle_reaches_solver_C6 :
    buildCheck cycGs [] = Except.ok () ∧
    ∀ σ Tof minF medF, ¬ modelSat cycGs [] 2 σ Tof minF medF := by
  refine ⟨rfl, ?_⟩
  intro σ Tof minF medF h
  have h3 := h.2.1 cycG3 (by decide)
  have h4 := h.2.1 cycG4 (by decide)
  have c3 := gateSat_AS_elim h3 rfl (p := 4) (by decide)
  have c4 := gateSat_AS_elim h4 rfl (p := 3) (by decide)
  have l3 : σ 4 < σ 3 := c3.1
  have l4 : σ 3 < σ 4 := c4.1
  omega

/-- C3: the SA case classifies a fanin as true AS exactly when its type is
AS and its fanout count is exactly 1, and every feasible assignment
places a true-AS fanin non-strictly (fanin timing at most the output
timing) and any other fanin strictly before the output. -/
theorem sa_trueAS_C3 (gs : List Primitive) (cells : List T1Cell) (P : Nat)
    (σ Tof : Nat → Int) (minF medF : Nat → Bool) (g p : Primitive)
    (hm : modelSat gs cells P σ Tof minF medF) (hg : g ∈ gs) (hty : g.type = GType.SA)
    (hfi : p.sig ∈ g.fanins) (hlk : lookupSig gs p.sig = some p) :
    (a_is_true_AS gs p = true ↔ (p.type = GType.AS ∧ fanout gs p.sig = 1)) ∧
    (a_is_true_AS gs p = true → σ p.sig ≤ σ g.sig) ∧
    (a_is_true_AS gs p = false → σ p.sig < σ g.sig) := by
  have hsa := gateSat_SA_elim (hm.2.1 g hg) hty hfi
  unfold saFaninSat at hsa
  rw [hlk] at hsa
  obtain ⟨hord, hb1, hb2⟩ := hsa
  refine ⟨?_, ?_, ?_⟩
  · unfold a_is_true_AS
    simp [Bool.and_eq_true, decide_eq_true_eq]
  · intro htrue
    rw [htrue] at hord
    simpa using hord
  · intro hfalse
    rw [hfalse] at hord
    simpa using hord

/-- C3 witness: the classification and both constraint directions
discharged on a concrete model: the AS fanin 2 (fanout 1) of SA gate 5 is
true AS and co-located; the PI fanin 1 is not and sits strictly earlier. -/
theorem sa_trueAS_C3_witness :
    ((a_is_true_AS saGs asG2 = true ↔ (asG2.type = GType.AS ∧ fanout saGs asG2.sig = 1)) ∧
      (a_is_true_AS saGs asG2 = true → saSigma asG2.sig ≤ saSigma saG5.sig) ∧
      (a_is_true_AS saGs asG2 = false → saSigma asG2.sig < saSigma saG5.sig)) ∧
    ((a_is_true_AS saGs piG1 = true ↔ (piG1.type = GType.AS ∧ fanout saGs piG1.sig = 1)) ∧
      (a_is_true_AS saGs piG1 = true → saSigma piG1.sig ≤ saSigma saG5.sig) ∧
      (a_is_true_AS saGs piG1 = false → saSigma piG1.sig < saSigma saG5.sig)) :=
  ⟨sa_trueAS_C3 saGs [] 2 saSigma zeroT falseF falseF saG5 asG2
      (by decide) (by decide) rfl (by decide) (by decide),
    sa_trueAS_C3 saGs [] 2 saSigma zeroT falseF falseF saG5 piG1
      (by decide) (by decide) rfl (by decide) (by decide)⟩

/-- The sum-minus-min-minus-max expression the code constrains ABS_MED to
equals the median (middle value) of the three operands. -/
theorem ABS_MED_eq_median3 (a b c : Int) : ABS_MED a b c = median3 a b c := by
  unfold ABS_MED ABS_MIN ABS_MAX min3 max3 median3
  omega

/-- C2: every member signal of a T1/FA cell is constrained equal to the
cell timing T (the XOR member's timing), and T strictly exceeds MIN+2,
MED+1 and MAX of the three effective fanin timings, where each fanin
timing is incremented by one when that fanin is an AA gate or a negated
AS/SA gate. -/
theorem t1_group_timing_C2 (gs : List Primitive) (P : Nat) (members : List Nat)
    (f0 f1 f2 : Nat) (n0 n1 n2 : Bool) (σ : Nat → Int) (T : Int) (minFlag medFlag : Bool)
    (h : faCellSat gs P members f0 f1 f2 n0 n1 n2 σ T minFlag medFlag) :
    (∀ s ∈ members, σ s = T) ∧
    T > min3 (effSigma gs σ f0 n0) (effSigma gs σ f1 n1) (effSigma gs σ f2 n2) + 2 ∧
    T > median3 (effSigma gs σ f0 n0) (effSigma gs σ f1 n1) (effSigma gs σ f2 n2) + 1 ∧
    T > max3 (effSigma gs σ f0 n0) (effSigma gs σ f1 n1) (effSigma gs σ f2 n2) := by
  obtain ⟨h1, h2, h3, h4, h5, h6, h7, h8, h9, h10, h11, h12, h13, h14, h15, h16, h17,
    h18, h19, h20, h21, h22⟩ := h
  refine ⟨h22, h5, ?_, h7⟩
  have hmed := ABS_MED_eq_median3 (effSigma gs σ f0 n0) (effSigma gs σ f1 n1) (effSigma gs σ f2 n2)
  omega

/-- C2 witness: a concrete cell with members 10 and 11, PI fanins 1 2 3 at
timing 0 and cell timing 3, P = 2. -/
theorem t1_group_timing_C2_witness :
    (∀ s ∈ [10, 11], faSigmaW s = 3) ∧
    (3 : Int) > min3 (effSigma faPIs faSigmaW 1 false) (effSigma faPIs faSigmaW 2 false)
      (effSigma faPIs faSigmaW 3 false) + 2 ∧
    (3 : Int) > median3 (effSigma faPIs faSigmaW 1 false) (effSigma faPIs faSigmaW 2 false)
      (effSigma faPIs faSigmaW 3 false) + 1 ∧
    (3 : Int) > max3 (effSigma faPIs faSigmaW 1 false) (effSigma faPIs faSigmaW 2 false)
      (effSigma faPIs faSigmaW 3 false) :=
  t1_group_timing_C2 faPIs 2 [10, 11] 1 2 3 false false false faSigmaW 3 false false (by decide)

/-- C7 counterexample: a feasible FA-cell assignment (P = 4, inputs at 0,
cell timing 3) in which both halves of the MIN alignment condition hold —
(ABS_MED - ABS_MIN) mod P = 0 and floor((T - ABS_MIN - 1)/P) = 0 — yet
MIN_FLAG is false: the flag is only one-directionally reified, so it is
not true exactly when the conditions hold. -/
theorem fa_flags_C7_cex :
    faCellSat faPIs 4 [10] 1 2 3 false false false faSigmaE 3 false false ∧
    MED_MIN_diff 4 (effSigma faPIs faSigmaE 1 false) (effSigma faPIs faSigmaE 2 false)
      (effSigma faPIs faSigmaE 3 false) = 0 ∧
    FLOOR_DIFF_MIN 4 (effSigma faPIs faSigmaE 1 false) (effSigma faPIs faSigmaE 2 false)
      (effSigma faPIs faSigmaE 3 false) 3 = 0 := by
  decide

/-- C7 (amended): MIN_FLAG true forces (ABS_MED - ABS_MIN) mod P = 0 and
floor((T - ABS_MIN - 1)/P) = 0, and MED_FLAG true forces the analogous MED
conditions, but only in that direction (the converse is not enforced, so a
flag may be false while its conditions hold); moreover both flags are
appended to the minimized objective with coefficient +1, so a true flag
increases rather than reduces the objective. -/
theorem fa_flags_C7 (gs : List Primitive) (P : Nat) (members : List Nat)
    (f0 f1 f2 : Nat) (n0 n1 n2 : Bool) (σ : Nat → Int) (T : Int) (minFlag medFlag : Bool)
    (h : faCellSat gs P members f0 f1 f2 n0 n1 n2 σ T minFlag medFlag) :
    (minFlag = true →
      MED_MIN_diff P (effSigma gs σ f0 n0) (effSigma gs σ f1 n1) (effSigma gs σ f2 n2) = 0 ∧
      FLOOR_DIFF_MIN P (effSigma gs σ f0 n0) (effSigma gs σ f1 n1) (effSigma gs σ f2 n2) T = 0) ∧
    (medFlag = true →
      MAX_MED_diff P (effSigma gs σ f0 n0) (effSigma gs σ f1 n1) (effSigma gs σ f2 n2) = 0 ∧
      FLOOR_DIFF_MED P (effSigma gs σ f0 n0) (effSigma gs σ f1 n1) (effSigma gs σ f2 n2) T = 0) ∧
    faCost P (effSigma gs σ f0 n0) (effSigma gs σ f1 n1) (effSigma gs σ f2 n2) T minFlag medFlag =
      [FLOOR_DIFF_MIN P (effSigma gs σ f0 n0) (effSigma gs σ f1 n1) (effSigma gs σ f2 n2) T,
       FLOOR_DIFF_MED P (effSigma gs σ f0 n0) (effSigma gs σ f1 n1) (effSigma gs σ f2 n2) T,
       FLOOR_DIFF_MAX P (effSigma gs σ f0 n0) (effSigma gs σ f1 n1) (effSigma gs σ f2 n2) T,
       b2i minFlag, b2i medFlag] := by
  obtain ⟨h1, h2, h3, h4, h5, h6, h7, h8, h9, h10, h11, h12, h13, h14, h15, h16, h17,
    h18, h19, h20, h21, h22⟩ := h
  exact ⟨h20, h21, rfl⟩

/-- C7 witness: the amended statement discharged with both flags true on
the concrete cell of the counterexample (P = 4), where the conditions
indeed hold. -/
theorem fa_flags_C7_witness :
    (true = true →
      MED_MIN_diff 4 (effSigma faPIs faSigmaE 1 false) (effSigma faPIs faSigmaE 2 false)
        (effSigma faPIs faSigmaE 3 false) = 0 ∧
      FLOOR_DIFF_MIN 4 (effSigma faPIs faSigmaE 1 false) (effSigma faPIs faSigmaE 2 false)
        (effSigma faPIs faSigmaE 3 false) 3 = 0) ∧
    (true = true →
      MAX_MED_diff 4 (effSigma faPIs faSigmaE 1 false) (effSigma faPIs faSigmaE 2 false)
        (effSigma faPIs faSigmaE 3 false) = 0 ∧
      FLOOR_DIFF_MED 4 (effSigma faPIs faSigmaE 1 false) (effSigma faPIs faSigmaE 2 false)
        (effSigma faPIs faSigmaE 3 false) 3 = 0) ∧
    faCost 4 (effSigma faPIs faSigmaE 1 false) (effSigma faPIs faSigmaE 2 false)
      (effSigma faPIs faSigmaE 3 false) 3 true true =
      [FLOOR_DIFF_MIN 4 (effSigma faPIs faSigmaE 1 false) (effSigma faPIs faSigmaE 2 false)
        (effSigma faPIs faSigmaE 3 false) 3,
       FLOOR_DIFF_MED 4 (effSigma faPIs faSigmaE 1 false) (effSigma faPIs faSigmaE 2 false)
        (effSigma faPIs faSigmaE 3 false) 3,
       FLOOR_DIFF_MAX 4 (effSigma faPIs faSigmaE 1 false) (effSigma faPIs faSigmaE 2 false)
        (effSigma faPIs faSigmaE 3 false) 3,
       b2i true, b2i true] :=
  fa_flags_C7 faPIs 4 [10] 1 2 3 false false false faSigmaE 3 true true (by decide)

/-- C4 counterexample: in this feasible model (P = 2) the AS gate 2 has the
PrimaryInput fanin 1, and that PI edge contributes the per-edge
stage-delta floor-division term — its value here is 1, a full inserted
stage — to the objective list, so PrimaryInput fanins are not excluded
from the per-edge stage-delta cost. -/
theorem as_pi_cost_C4_cex :
    modelSat asGs [] 2 asSigma zeroT falseF falseF ∧
    lookupSig asGs 1 = some piG1 ∧ piG1.type = GType.PI ∧
    gateCost 2 asSigma asG2 = [1] := by
  decide

/-- C4 (amended): every AS fanin edge — PrimaryInput fanins included —
enforces strict ordering and appends the floor-division cost term
(timing delta over P) to the objective; in the dual formulation of
Gradual_ILP.py the PI branch appends S[g] - Phi_cond, which equals the
general stage-delta term S[g] - S[p] - Phi_cond because a PI's stage is
pinned to 0 (it is not merely a phase-alignment term). -/
theorem as_edges_C4 :
    (∀ (gs : List Primitive) (cells : List T1Cell) (P : Nat) (σ Tof : Nat → Int)
      (minF medF : Nat → Bool), modelSat gs cells P σ Tof minF medF →
      ∀ g ∈ gs, g.type = GType.AS → ∀ p ∈ g.fanins,
        σ p < σ g.sig ∧ as_div_val P σ p g.sig ∈ gateCost P σ g) ∧
    (∀ (p : Primitive) (S : Nat → Int) (gSig : Nat) (cond : Bool),
      p.type = GType.PI → S p.sig = 0 →
      Gradual.as_cost_term p S gSig cond = S gSig - S p.sig - b2i cond) := by
  constructor
  · intro gs cells P σ Tof minF medF hm g hg hty p hp
    have has := gateSat_AS_elim (hm.2.1 g hg) hty hp
    refine ⟨has.1, ?_⟩
    unfold gateCost
    rw [hty]
    simp only [reduceCtorEq, if_false, if_true]
    exact List.mem_map_of_mem _ hp
  · intro p S gSig cond hty h0
    unfold Gradual.as_cost_term
    rw [hty, h0]
    simp

/-- A boolean contributes a non-negative amount to a sum. -/
theorem b2i_nonneg (b : Bool) : 0 ≤ b2i b := by
  cases b <;> simp [b2i]

/-- A boolean contributes at most one to a sum. -/
theorem b2i_le_one (b : Bool) : b2i b ≤ 1 := by
  cases b <;> simp [b2i]

/-- Every term a satisfied gate appends to the objective is non-negative. -/
theorem gateCost_nonneg {gs : List Primitive} {P : Nat} {σ : Nat → Int} {g : Primitive}
    (h : gateSat gs P σ g) : ∀ t ∈ gateCost P σ g, 0 ≤ t := by
  intro t ht
  unfold gateSat at h
  unfold gateCost at ht
  cases hty : g.type with
  | PI =>
    rw [hty] at ht
    simp at ht
  | AA =>
    rw [hty] at h ht
    simp at h ht
    rw [ht]
    exact h.2.2.1.1
  | AS =>
    rw [hty] at h ht
    simp only [reduceCtorEq, if_false, if_true] at h ht
    obtain ⟨p, hp, rfl⟩ := List.mem_map.1 ht
    exact (h p hp).2.2.1
  | SA =>
    rw [hty] at h ht
    simp only [reduceCtorEq, if_false, if_true] at h ht
    obtain ⟨p, hp, rfl⟩ := List.mem_map.1 ht
    have hs := h p hp
    unfold saFaninSat at hs
    cases hlk : lookupSig gs p with
    | none => rw [hlk] at hs; exact (hs : False).elim
    | some q => rw [hlk] at hs; exact hs.2.2.1
  | FA =>
    rw [hty] at ht
    simp at ht

/-- Every term a satisfied T1 cell appends to the objective is
non-negative. -/
theorem cellCost_nonneg {gs : List Primitive} {P : Nat} {σ Tof : Nat → Int}
    {minF medF : Nat → Bool} {c : T1Cell}
    (h : cellSat gs P σ Tof minF medF c) :
    ∀ t ∈ cellCost gs P σ Tof minF medF c, 0 ≤ t := by
  intro t ht
  obtain ⟨hne, h2⟩ := h
  unfold cellCost at ht
  cases hlk : lookupSig gs (c.members.headD 0) with
  | none =>
    rw [hlk] at ht
    simp at ht
  | some g =>
    rw [hlk] at ht h2
    obtain ⟨hl1, hl2, hfa⟩ := h2
    obtain ⟨h1, h2b, h3, h4, h5, h6, h7, h8, h9, h10, h11, h12, h13, h14, h15, h16, h17,
      h18, h19, h20, h21, h22⟩ := hfa
    unfold faCost at ht
    simp only [List.mem_cons, List.not_mem_nil, or_false] at ht
    rcases ht with rfl | rfl | rfl | rfl | rfl
    · exact h15.1
    · exact h17.1
    · exact h19.1
    · exact b2i_nonneg _
    · exact b2i_nonneg _

/-- C8: in every feasible assignment of the constructed model every term
appended to the objective expression is a non-negative integer, and the
reported objective value is the exact sum of all per-signal and per-edge
terms; likewise each SA-case cost term of the dual formulation of
Gradual_ILP.py is non-negative under its emitted constraints. -/
theorem cost_nonneg_C8 :
    (∀ (gs : List Primitive) (cells : List T1Cell) (P : Nat) (σ Tof : Nat → Int)
      (minF medF : Nat → Bool), modelSat gs cells P σ Tof minF medF →
      (∀ t ∈ modelCost gs cells P σ Tof minF medF, 0 ≤ t) ∧
      objectiveValue gs cells P σ Tof minF medF = (modelCost gs cells P σ Tof minF medF).sum) ∧
    (∀ (S Phi : Nat → Int) (aSig bSig gSig : Nat) (D : Int)
      (a_lt_b phiBA phiAB cond_a cond_b : Bool),
      Gradual.saCaseYYSat S Phi aSig bSig gSig D a_lt_b phiBA phiAB cond_a cond_b →
      0 ≤ Gradual.saCaseYYTerm D cond_a cond_b) ∧
    (∀ (S Phi : Nat → Int) (aSig bSig gSig : Nat) (D : Int)
      (a_lt_b phiBA phiAB cond_a cond_b : Bool),
      Gradual.saCaseNNSat S Phi aSig bSig gSig D a_lt_b phiBA phiAB cond_a cond_b →
      0 ≤ Gradual.saCaseNNTerm D cond_a cond_b) ∧
    (∀ (S Phi : Nat → Int) (aSig bSig gSig : Nat) (D : Int)
      (p1 pca pcb cond_a cond_b : Bool),
      Gradual.saCaseANSat S Phi aSig bSig gSig D p1 pca pcb cond_a cond_b →
      0 ≤ Gradual.saCaseANTerm D cond_a cond_b p1) := by
  refine ⟨?_, ?_, ?_, ?_⟩
  · intro gs cells P σ Tof minF medF hm
    refine ⟨?_, rfl⟩
    intro t ht
    unfold modelCost at ht
    rcases List.mem_append.1 ht with ht | ht
    · obtain ⟨l, hl, htl⟩ := List.mem_flatten.1 ht
      obtain ⟨g, hg, rfl⟩ := List.mem_map.1 hl
      exact gateCost_nonneg (hm.2.1 g hg) t htl
    · obtain ⟨l, hl, htl⟩ := List.mem_flatten.1 ht
      obtain ⟨c, hc, rfl⟩ := List.mem_map.1 hl
      exact cellCost_nonneg (hm.2.2 c hc) t htl
  · intro S Phi aSig bSig gSig D a_lt_b phiBA phiAB cond_a cond_b h
    obtain ⟨h1, h2, h3, h4, h5, h6, h7, h8, h9⟩ := h
    have hD : (0 : Int) ≤ D := h7.2.2.1
    have hz : b2i false = 0 := rfl
    have ho : b2i true = 1 := rfl
    cases hca : cond_a with
    | false =>
      unfold Gradual.saCaseYYTerm
      have hb := b2i_nonneg cond_b
      have hb1 := b2i_le_one cond_b
      omega
    | true =>
      cases hcb : cond_b with
      | false =>
        unfold Gradual.saCaseYYTerm
        omega
      | true =>
        obtain ⟨_, hab1⟩ := h8 hca
        obtain ⟨_, hab2⟩ := h9 hcb
        rw [hab1] at hab2
        exact absurd hab2 (by decide)
  · intro S Phi aSig bSig gSig D a_lt_b phiBA phiAB cond_a cond_b h
    obtain ⟨h1, h2, h3, h4, h5, h6, h7, h8, h9, h10, h11⟩ := h
    have hD : (0 : Int) ≤ D := h7.2.2.1
    unfold Gradual.saCaseNNTerm
    have ha := b2i_nonneg cond_a
    have hb := b2i_nonneg cond_b
    have ha1 := b2i_le_one cond_a
    have hb1 := b2i_le_one cond_b
    omega
  · intro S Phi aSig bSig gSig D p1 pca pcb cond_a cond_b h
    obtain ⟨h1, h2, h3, h4, h5, h6, h7, h8, h9, h10, h11⟩ := h
    have hD : (0 : Int) ≤ D := h9.2.2.1
    have hz : b2i false = 0 := rfl
    have ho : b2i true = 1 := rfl
    have hp := b2i_nonneg p1
    cases hca : cond_a with
    | false =>
      cases hcb : cond_b with
      | false =>
        unfold Gradual.saCaseANTerm
        omega
      | true =>
        obtain ⟨_, hp1⟩ := h11 hcb
        rw [hp1]
        unfold Gradual.saCaseANTerm
        omega
    | true =>
      obtain ⟨_, hp1⟩ := h10 hca
      rw [hp1]
      cases hcb : cond_b with
      | false =>
        unfold Gradual.saCaseANTerm
        omega
      | true =>
        obtain ⟨_, hp1b⟩ := h11 hcb
        rw [hp1] at hp1b
        exact absurd hp1b (by decide)

/-- The SA case predicates of the dual formulation are satisfiable (the
hypotheses of the non-negativity statements are not vacuous): the all-zero
assignment with suitable booleans satisfies each. -/
theorem gradual_sa_cases_satisfiable :
    Gradual.saCaseYYSat (fun _ => 0) (fun _ => 0) 1 2 3 0 false true true false true ∧
    Gradual.saCaseNNSat (fun _ => 0) (fun n => if n = 3 then 1 else 0) 1 2 3 0
      false false false false false ∧
    Gradual.saCaseANSat (fun _ => 0) (fun n => if n = 3 then 1 else 0) 1 2 3 0
      true true true false true := by
  refine ⟨?_, ?_, ?_⟩ <;> decide

/-- The single-PI model has optimal objective 0: the empty cost list sums
to 0 for every feasible assignment, and the zero assignment is feasible
for P = 2. -/
theorem piOnly_optimal : IsOptimalObjective piOnly [] 2 0 := by
  constructor
  · exact ⟨fun _ => 0, zeroT, falseF, falseF, by decide, by decide⟩
  · intro σ Tof minF medF hm
    have h0 : objectiveValue piOnly [] 2 σ Tof minF medF = 0 := by
      unfold objectiveValue modelCost piOnly
      simp [gateCost, piG1, Primitive.init]
    omega

/-- C9: model construction is a pure function of the signal graph, the
cell list and P — two runs allocate identical variable counts — and the
optimal objective value of the constructed model is unique. -/
theorem deterministic_C9 (gs : List Primitive) (cells : List T1Cell) (P : Nat) (v₁ v₂ : Int)
    (h₁ : IsOptimalObjective gs cells P v₁) (h₂ : IsOptimalObjective gs cells P v₂) :
    varCount gs cells = varCount gs cells ∧ v₁ = v₂ := by
  refine ⟨rfl, ?_⟩
  obtain ⟨⟨σ1, T1, m1, d1, hs1, ho1⟩, hmin1⟩ := h₁
  obtain ⟨⟨σ2, T2, m2, d2, hs2, ho2⟩, hmin2⟩ := h₂
  have hv1 := hmin1 σ2 T2 m2 d2 hs2
  have hv2 := hmin2 σ1 T1 m1 d1 hs1
  omega

/-- C9 witness: the uniqueness of the optimum discharged on the single-PI
model, whose optimal objective is 0. -/
theorem deterministic_C9_witness :
    varCount piOnly [] = varCount piOnly [] ∧ (0 : Int) = 0 :=
  deterministic_C9 piOnly [] 2 0 0 piOnly_optimal piOnly_optimal

end Multiphase
